import Mathlib

/-!
Verification of the event-aggregation and Markdown-rendering pipeline of
`markdown-test-report` against its specification.

The definitions below are a shallow embedding of the Rust sources:

* `src/event.rs` — the event model (`Record`, `suite::Event`, `test::Event`)
  together with the serde decoding behaviour (internally tagged enums with
  tags `type` and `event`).
* `src/processor.rs` — the final revision of the aggregator/renderer
  (`Processor`), including `record_suite_started`, `record_suite_ok`,
  `record_suite_failed`, `make_anchor`, `make_linked_name`, `make_heading`,
  `render_index` and `render_details`.  (`src/main.rs` additionally contains
  an earlier historical revision of the same processor.)

Modelling conventions:

* Rust `u64` values are `Nat`; `u64` addition reduces modulo `2 ^ 64`
  (release-mode wrapping semantics), written explicitly as `u64add`.
* `std::time::Duration` values are modelled as rational numbers of seconds
  (`ℚ`); duration addition is exact, as in the source.
* JSON parsing of a raw text line is performed by the external collaborator
  `serde_json`; its output is modelled by the `Json` value type, so a raw
  input line is represented as `Option Json` (`none` = the line is not valid
  JSON).  The deserialisation of a `Json` value into a `Record` is embedded
  faithfully from the serde derives in `src/event.rs`.
* Writes to the output sink are modelled as the list of lines produced by the
  successive `writeln!` calls; duration formatting (`format_duration`, which
  delegates to the `humantime` crate or to Rust `Debug` formatting) is passed
  as an abstract formatting function `fd : ℚ → String`.
-/

namespace MarkdownTestReport

/-- JSON values, modelling the output of the external `serde_json` parser.
Numbers are modelled as rationals. -/
inductive Json where
  | null
  | bool (b : Bool)
  | num (q : ℚ)
  | str (s : String)
  | arr (elts : List Json)
  | obj (members : List (String × Json))

/-- Field lookup in a JSON object member list (first match wins). -/
def lookupMember : List (String × Json) → String → Option Json
  | [], _ => none
  | (k, v) :: rest, key => if k = key then some v else lookupMember rest key

/-- Field lookup on a JSON value: `none` unless the value is an object with
the requested member. -/
def Json.lookup? (j : Json) (key : String) : Option Json :=
  match j with
  | Json.obj ms => lookupMember ms key
  | _ => none

/-- Shallow embedding of `suite::Event` from `src/event.rs` (lines 40-55).
The enum as written defines only the `Started` and `Failed` variants; it has
no `Ok` variant, although `Processor::record` in `src/processor.rs` (line
158) and in `src/main.rs` (line 168) both pattern-match `suite::Event::Ok`. -/
inductive SuiteEvent where
  | Started (test_count : Nat)
  | Failed (passed failed allowed_fail ignored filtered_out : Nat) (exec_time : ℚ)
deriving DecidableEq

/-- Shallow embedding of `test::Event` from `src/event.rs` (lines 61-79). -/
inductive TestEvent where
  | Started (name : String)
  | Ok (name : String) (exec_time : ℚ)
  | Failed (name : String) (exec_time : ℚ) (stdout : String)
deriving DecidableEq

/-- Shallow embedding of `Record` from `src/event.rs` (lines 6-11). -/
inductive Record where
  | suite (e : SuiteEvent)
  | test (e : TestEvent)
deriving DecidableEq

/-- Decoding of a serde `u64` field: a JSON number that is a nonnegative
integer fitting in 64 bits. -/
def asU64 (j : Json) : Option Nat :=
  match j with
  | Json.num q => if q.den = 1 ∧ 0 ≤ q.num ∧ q.num < 2 ^ 64 then some q.num.toNat else none
  | _ => none

/-- Decoding of an `exec_time` field via `from_duration` in `src/event.rs`
(lines 13-35): the visitor accepts any JSON number (`visit_f64`) and fails on
every other JSON type. -/
def asDuration (j : Json) : Option ℚ :=
  match j with
  | Json.num q => some q
  | _ => none

/-- Decoding of a serde string field. -/
def asStr (j : Json) : Option String :=
  match j with
  | Json.str s => some s
  | _ => none

/-- Decoding of `suite::Event`, internally tagged by the `event` member
(`#[serde(tag = "event", rename_all = "lowercase")]`).  Only the tags
`started` and `failed` are recognised, matching the variants present in
`src/event.rs`; every other tag (in particular `ok`) fails to decode. -/
def decodeSuite (j : Json) : Option SuiteEvent :=
  match j.lookup? "event" with
  | some (Json.str "started") => do
      let tc ← asU64 (← j.lookup? "test_count")
      pure (SuiteEvent.Started tc)
  | some (Json.str "failed") => do
      let p ← asU64 (← j.lookup? "passed")
      let f ← asU64 (← j.lookup? "failed")
      let af ← asU64 (← j.lookup? "allowed_fail")
      let i ← asU64 (← j.lookup? "ignored")
      let fo ← asU64 (← j.lookup? "filtered_out")
      let t ← asDuration (← j.lookup? "exec_time")
      pure (SuiteEvent.Failed p f af i fo t)
  | _ => none

/-- Decoding of `test::Event`, internally tagged by the `event` member.
`stdout` on the `failed` variant is `#[serde(default)]`: an absent member
yields the empty string, a present member must be a string. -/
def decodeTest (j : Json) : Option TestEvent :=
  match j.lookup? "event" with
  | some (Json.str "started") => do
      let n ← asStr (← j.lookup? "name")
      pure (TestEvent.Started n)
  | some (Json.str "ok") => do
      let n ← asStr (← j.lookup? "name")
      let t ← asDuration (← j.lookup? "exec_time")
      pure (TestEvent.Ok n t)
  | some (Json.str "failed") => do
      let n ← asStr (← j.lookup? "name")
      let t ← asDuration (← j.lookup? "exec_time")
      match j.lookup? "stdout" with
      | none => pure (TestEvent.Failed n t "")
      | some v => do
          let s ← asStr v
          pure (TestEvent.Failed n t s)
  | _ => none

/-- Decoding of `Record`, internally tagged by the `type` member
(`#[serde(tag = "type", rename_all = "lowercase")]`): `suite` and `test` are
the only recognised outer tags. -/
def decodeRecord (j : Json) : Option Record :=
  match j.lookup? "type" with
  | some (Json.str "suite") => (decodeSuite j).map Record.suite
  | some (Json.str "test") => (decodeTest j).map Record.test
  | _ => none

/-- Outcome of a suite or of the whole report (`src/processor.rs` lines
33-37).  Rendered as `✅` for `Ok` and `❌` for `Failed`. -/
inductive Outcome where
  | Ok
  | Failed
deriving DecidableEq

/-- Aggregated summary (`src/processor.rs` lines 48-56). -/
structure Summary where
  outcome : Outcome
  passed : Nat
  failed : Nat
  ignored : Nat
  filtered_out : Nat
  exec_time : ℚ
deriving DecidableEq

/-- Wrapping `u64` addition. -/
def u64add (a b : Nat) : Nat := (a + b) % 2 ^ 64

/-- `Processor::record_suite_started` (`src/processor.rs` lines 183-188):
add the incoming `test_count` to the accumulated total, starting the total
at that value when none was recorded yet. -/
def record_suite_started (test_count_acc : Option Nat) (test_count : Nat) : Option Nat :=
  match test_count_acc with
  | some count => some (u64add count test_count)
  | none => some test_count

/-- `Processor::record_suite_ok` (`src/processor.rs` lines 190-211): merge an
`Ok` suite completion into the summary.  The outcome stays `Failed` when it
already was `Failed`, otherwise becomes `Ok`; all counts and the execution
time are added. -/
def record_suite_ok (summary : Option Summary)
    (passed failed ignored filtered_out : Nat) (exec_time : ℚ) : Option Summary :=
  match summary with
  | some s => some {
      outcome := if s.outcome = Outcome.Failed then Outcome.Failed else Outcome.Ok,
      passed := u64add s.passed passed,
      failed := u64add s.failed failed,
      ignored := u64add s.ignored ignored,
      filtered_out := u64add s.filtered_out filtered_out,
      exec_time := s.exec_time + exec_time }
  | none => some {
      outcome := Outcome.Ok,
      passed := passed,
      failed := failed,
      ignored := ignored,
      filtered_out := filtered_out,
      exec_time := exec_time }

/-- `Processor::record_suite_failed` (`src/processor.rs` lines 213-234):
merge a `Failed` suite completion into the summary; the outcome is forced to
`Failed`, all counts and the execution time are added. -/
def record_suite_failed (summary : Option Summary)
    (passed failed ignored filtered_out : Nat) (exec_time : ℚ) : Option Summary :=
  match summary with
  | some s => some {
      outcome := Outcome.Failed,
      passed := u64add s.passed passed,
      failed := u64add s.failed failed,
      ignored := u64add s.ignored ignored,
      filtered_out := u64add s.filtered_out filtered_out,
      exec_time := s.exec_time + exec_time }
  | none => some {
      outcome := Outcome.Failed,
      passed := passed,
      failed := failed,
      ignored := ignored,
      filtered_out := filtered_out,
      exec_time := exec_time }

/-- Suite completion events as dispatched by `Processor::record`
(`src/processor.rs` lines 158-177) to `record_suite_ok` and
`record_suite_failed` — the five field values that are destructured and passed
on (`allowed_fail` is discarded there by the `..` pattern). -/
inductive SuiteDone where
  | Ok (passed failed ignored filtered_out : Nat) (exec_time : ℚ)
  | Failed (passed failed ignored filtered_out : Nat) (exec_time : ℚ)
deriving DecidableEq

def SuiteDone.passed : SuiteDone → Nat
  | SuiteDone.Ok p _ _ _ _ => p
  | SuiteDone.Failed p _ _ _ _ => p

def SuiteDone.failed : SuiteDone → Nat
  | SuiteDone.Ok _ f _ _ _ => f
  | SuiteDone.Failed _ f _ _ _ => f

def SuiteDone.ignored : SuiteDone → Nat
  | SuiteDone.Ok _ _ i _ _ => i
  | SuiteDone.Failed _ _ i _ _ => i

def SuiteDone.filtered_out : SuiteDone → Nat
  | SuiteDone.Ok _ _ _ fo _ => fo
  | SuiteDone.Failed _ _ _ fo _ => fo

def SuiteDone.exec_time : SuiteDone → ℚ
  | SuiteDone.Ok _ _ _ _ t => t
  | SuiteDone.Failed _ _ _ _ t => t

def SuiteDone.isFailed : SuiteDone → Bool
  | SuiteDone.Ok _ _ _ _ _ => false
  | SuiteDone.Failed _ _ _ _ _ => true

/-- Bounds satisfied by the fields of a decoded suite event (they are `u64`
values in the source). -/
def SuiteDone.inBounds (e : SuiteDone) : Prop :=
  e.passed < 2 ^ 64 ∧ e.failed < 2 ^ 64 ∧ e.ignored < 2 ^ 64 ∧ e.filtered_out < 2 ^ 64

instance (e : SuiteDone) : Decidable e.inBounds := by
  unfold SuiteDone.inBounds; infer_instance

/-- Ingestion of one suite completion event into the summary, following the
dispatch in `Processor::record`. -/
def recordSuiteDone (summary : Option Summary) : SuiteDone → Option Summary
  | SuiteDone.Ok p f i fo t => record_suite_ok summary p f i fo t
  | SuiteDone.Failed p f i fo t => record_suite_failed summary p f i fo t

/-- Ingestion of a whole sequence of suite completion events, starting from
the initial empty summary of `Processor::new`. -/
def processSuite (evs : List SuiteDone) : Option Summary :=
  evs.foldl recordSuiteDone none

set_option maxRecDepth 8192

/-- The codepoint ranges (inclusive) on which Rust `char::is_alphanumeric`
returns true: the union of the Unicode `Alphabetic` property and the `Nd`,
`Nl` and `No` general categories, transcribed from the Unicode 14.0.0
character database and merged into sorted disjoint ranges. -/
def alphanumericRanges : List (Nat × Nat) :=
  [
    (48, 57), (65, 90), (97, 122), (170, 170), (178, 179), (181, 181),
    (185, 186), (188, 190), (192, 214), (216, 246), (248, 705), (710, 721),
    (736, 740), (748, 748), (750, 750), (837, 837), (880, 884), (886, 887),
    (890, 893), (895, 895), (902, 902), (904, 906), (908, 908), (910, 929),
    (931, 1013), (1015, 1153), (1162, 1327), (1329, 1366), (1369, 1369), (1376, 1416),
    (1456, 1469), (1471, 1471), (1473, 1474), (1476, 1477), (1479, 1479), (1488, 1514),
    (1519, 1522), (1552, 1562), (1568, 1623), (1625, 1641), (1646, 1747), (1749, 1756),
    (1761, 1768), (1773, 1788), (1791, 1791), (1808, 1855), (1869, 1969), (1984, 2026),
    (2036, 2037), (2042, 2042), (2048, 2071), (2074, 2092), (2112, 2136), (2144, 2154),
    (2160, 2183), (2185, 2190), (2208, 2249), (2260, 2271), (2275, 2281), (2288, 2363),
    (2365, 2380), (2382, 2384), (2389, 2403), (2406, 2415), (2417, 2435), (2437, 2444),
    (2447, 2448), (2451, 2472), (2474, 2480), (2482, 2482), (2486, 2489), (2493, 2500),
    (2503, 2504), (2507, 2508), (2510, 2510), (2519, 2519), (2524, 2525), (2527, 2531),
    (2534, 2545), (2548, 2553), (2556, 2556), (2561, 2563), (2565, 2570), (2575, 2576),
    (2579, 2600), (2602, 2608), (2610, 2611), (2613, 2614), (2616, 2617), (2622, 2626),
    (2631, 2632), (2635, 2636), (2641, 2641), (2649, 2652), (2654, 2654), (2662, 2677),
    (2689, 2691), (2693, 2701), (2703, 2705), (2707, 2728), (2730, 2736), (2738, 2739),
    (2741, 2745), (2749, 2757), (2759, 2761), (2763, 2764), (2768, 2768), (2784, 2787),
    (2790, 2799), (2809, 2812), (2817, 2819), (2821, 2828), (2831, 2832), (2835, 2856),
    (2858, 2864), (2866, 2867), (2869, 2873), (2877, 2884), (2887, 2888), (2891, 2892),
    (2902, 2903), (2908, 2909), (2911, 2915), (2918, 2927), (2929, 2935), (2946, 2947),
    (2949, 2954), (2958, 2960), (2962, 2965), (2969, 2970), (2972, 2972), (2974, 2975),
    (2979, 2980), (2984, 2986), (2990, 3001), (3006, 3010), (3014, 3016), (3018, 3020),
    (3024, 3024), (3031, 3031), (3046, 3058), (3072, 3075), (3077, 3084), (3086, 3088),
    (3090, 3112), (3114, 3129), (3133, 3140), (3142, 3144), (3146, 3148), (3157, 3158),
    (3160, 3162), (3165, 3165), (3168, 3171), (3174, 3183), (3192, 3198), (3200, 3203),
    (3205, 3212), (3214, 3216), (3218, 3240), (3242, 3251), (3253, 3257), (3261, 3268),
    (3270, 3272), (3274, 3276), (3285, 3286), (3293, 3294), (3296, 3299), (3302, 3311),
    (3313, 3314), (3328, 3340), (3342, 3344), (3346, 3386), (3389, 3396), (3398, 3400),
    (3402, 3404), (3406, 3406), (3412, 3427), (3430, 3448), (3450, 3455), (3457, 3459),
    (3461, 3478), (3482, 3505), (3507, 3515), (3517, 3517), (3520, 3526), (3535, 3540),
    (3542, 3542), (3544, 3551), (3558, 3567), (3570, 3571), (3585, 3642), (3648, 3654),
    (3661, 3661), (3664, 3673), (3713, 3714), (3716, 3716), (3718, 3722), (3724, 3747),
    (3749, 3749), (3751, 3769), (3771, 3773), (3776, 3780), (3782, 3782), (3789, 3789),
    (3792, 3801), (3804, 3807), (3840, 3840), (3872, 3891), (3904, 3911), (3913, 3948),
    (3953, 3969), (3976, 3991), (3993, 4028), (4096, 4150), (4152, 4152), (4155, 4169),
    (4176, 4253), (4256, 4293), (4295, 4295), (4301, 4301), (4304, 4346), (4348, 4680),
    (4682, 4685), (4688, 4694), (4696, 4696), (4698, 4701), (4704, 4744), (4746, 4749),
    (4752, 4784), (4786, 4789), (4792, 4798), (4800, 4800), (4802, 4805), (4808, 4822),
    (4824, 4880), (4882, 4885), (4888, 4954), (4969, 4988), (4992, 5007), (5024, 5109),
    (5112, 5117), (5121, 5740), (5743, 5759), (5761, 5786), (5792, 5866), (5870, 5880),
    (5888, 5907), (5919, 5939), (5952, 5971), (5984, 5996), (5998, 6000), (6002, 6003),
    (6016, 6067), (6070, 6088), (6103, 6103), (6108, 6108), (6112, 6121), (6128, 6137),
    (6160, 6169), (6176, 6264), (6272, 6314), (6320, 6389), (6400, 6430), (6432, 6443),
    (6448, 6456), (6470, 6509), (6512, 6516), (6528, 6571), (6576, 6601), (6608, 6618),
    (6656, 6683), (6688, 6750), (6753, 6772), (6784, 6793), (6800, 6809), (6823, 6823),
    (6847, 6848), (6860, 6862), (6912, 6963), (6965, 6979), (6981, 6988), (6992, 7001),
    (7040, 7081), (7084, 7141), (7143, 7153), (7168, 7222), (7232, 7241), (7245, 7293),
    (7296, 7304), (7312, 7354), (7357, 7359), (7401, 7404), (7406, 7411), (7413, 7414),
    (7418, 7418), (7424, 7615), (7655, 7668), (7680, 7957), (7960, 7965), (7968, 8005),
    (8008, 8013), (8016, 8023), (8025, 8025), (8027, 8027), (8029, 8029), (8031, 8061),
    (8064, 8116), (8118, 8124), (8126, 8126), (8130, 8132), (8134, 8140), (8144, 8147),
    (8150, 8155), (8160, 8172), (8178, 8180), (8182, 8188), (8304, 8305), (8308, 8313),
    (8319, 8329), (8336, 8348), (8450, 8450), (8455, 8455), (8458, 8467), (8469, 8469),
    (8473, 8477), (8484, 8484), (8486, 8486), (8488, 8488), (8490, 8493), (8495, 8505),
    (8508, 8511), (8517, 8521), (8526, 8526), (8528, 8585), (9312, 9371), (9398, 9471),
    (10102, 10131), (11264, 11492), (11499, 11502), (11506, 11507), (11517, 11517), (11520, 11557),
    (11559, 11559), (11565, 11565), (11568, 11623), (11631, 11631), (11648, 11670), (11680, 11686),
    (11688, 11694), (11696, 11702), (11704, 11710), (11712, 11718), (11720, 11726), (11728, 11734),
    (11736, 11742), (11744, 11775), (11823, 11823), (12293, 12295), (12321, 12329), (12337, 12341),
    (12344, 12348), (12353, 12438), (12445, 12447), (12449, 12538), (12540, 12543), (12549, 12591),
    (12593, 12686), (12690, 12693), (12704, 12735), (12784, 12799), (12832, 12841), (12872, 12879),
    (12881, 12895), (12928, 12937), (12977, 12991), (13312, 19903), (19968, 42124), (42192, 42237),
    (42240, 42508), (42512, 42539), (42560, 42606), (42612, 42619), (42623, 42735), (42775, 42783),
    (42786, 42888), (42891, 42954), (42960, 42961), (42963, 42963), (42965, 42969), (42994, 43013),
    (43015, 43047), (43056, 43061), (43072, 43123), (43136, 43203), (43205, 43205), (43216, 43225),
    (43250, 43255), (43259, 43259), (43261, 43306), (43312, 43346), (43360, 43388), (43392, 43442),
    (43444, 43455), (43471, 43481), (43488, 43518), (43520, 43574), (43584, 43597), (43600, 43609),
    (43616, 43638), (43642, 43710), (43712, 43712), (43714, 43714), (43739, 43741), (43744, 43759),
    (43762, 43765), (43777, 43782), (43785, 43790), (43793, 43798), (43808, 43814), (43816, 43822),
    (43824, 43866), (43868, 43881), (43888, 44010), (44016, 44025), (44032, 55203), (55216, 55238),
    (55243, 55291), (63744, 64109), (64112, 64217), (64256, 64262), (64275, 64279), (64285, 64296),
    (64298, 64310), (64312, 64316), (64318, 64318), (64320, 64321), (64323, 64324), (64326, 64433),
    (64467, 64829), (64848, 64911), (64914, 64967), (65008, 65019), (65136, 65140), (65142, 65276),
    (65296, 65305), (65313, 65338), (65345, 65370), (65382, 65470), (65474, 65479), (65482, 65487),
    (65490, 65495), (65498, 65500), (65536, 65547), (65549, 65574), (65576, 65594), (65596, 65597),
    (65599, 65613), (65616, 65629), (65664, 65786), (65799, 65843), (65856, 65912), (65930, 65931),
    (66176, 66204), (66208, 66256), (66273, 66299), (66304, 66339), (66349, 66378), (66384, 66426),
    (66432, 66461), (66464, 66499), (66504, 66511), (66513, 66517), (66560, 66717), (66720, 66729),
    (66736, 66771), (66776, 66811), (66816, 66855), (66864, 66915), (66928, 66938), (66940, 66954),
    (66956, 66962), (66964, 66965), (66967, 66977), (66979, 66993), (66995, 67001), (67003, 67004),
    (67072, 67382), (67392, 67413), (67424, 67431), (67456, 67461), (67463, 67504), (67506, 67514),
    (67584, 67589), (67592, 67592), (67594, 67637), (67639, 67640), (67644, 67644), (67647, 67669),
    (67672, 67702), (67705, 67742), (67751, 67759), (67808, 67826), (67828, 67829), (67835, 67867),
    (67872, 67897), (67968, 68023), (68028, 68047), (68050, 68099), (68101, 68102), (68108, 68115),
    (68117, 68119), (68121, 68149), (68160, 68168), (68192, 68222), (68224, 68255), (68288, 68295),
    (68297, 68324), (68331, 68335), (68352, 68405), (68416, 68437), (68440, 68466), (68472, 68497),
    (68521, 68527), (68608, 68680), (68736, 68786), (68800, 68850), (68858, 68903), (68912, 68921),
    (69216, 69246), (69248, 69289), (69291, 69292), (69296, 69297), (69376, 69415), (69424, 69445),
    (69457, 69460), (69488, 69505), (69552, 69579), (69600, 69622), (69632, 69701), (69714, 69743),
    (69745, 69749), (69762, 69816), (69826, 69826), (69840, 69864), (69872, 69881), (69888, 69938),
    (69942, 69951), (69956, 69959), (69968, 70002), (70006, 70006), (70016, 70079), (70081, 70084),
    (70094, 70106), (70108, 70108), (70113, 70132), (70144, 70161), (70163, 70196), (70199, 70199),
    (70206, 70206), (70272, 70278), (70280, 70280), (70282, 70285), (70287, 70301), (70303, 70312),
    (70320, 70376), (70384, 70393), (70400, 70403), (70405, 70412), (70415, 70416), (70419, 70440),
    (70442, 70448), (70450, 70451), (70453, 70457), (70461, 70468), (70471, 70472), (70475, 70476),
    (70480, 70480), (70487, 70487), (70493, 70499), (70656, 70721), (70723, 70725), (70727, 70730),
    (70736, 70745), (70751, 70753), (70784, 70849), (70852, 70853), (70855, 70855), (70864, 70873),
    (71040, 71093), (71096, 71102), (71128, 71133), (71168, 71230), (71232, 71232), (71236, 71236),
    (71248, 71257), (71296, 71349), (71352, 71352), (71360, 71369), (71424, 71450), (71453, 71466),
    (71472, 71483), (71488, 71494), (71680, 71736), (71840, 71922), (71935, 71942), (71945, 71945),
    (71948, 71955), (71957, 71958), (71960, 71989), (71991, 71992), (71995, 71996), (71999, 72002),
    (72016, 72025), (72096, 72103), (72106, 72151), (72154, 72159), (72161, 72161), (72163, 72164),
    (72192, 72242), (72245, 72254), (72272, 72343), (72349, 72349), (72368, 72440), (72704, 72712),
    (72714, 72758), (72760, 72766), (72768, 72768), (72784, 72812), (72818, 72847), (72850, 72871),
    (72873, 72886), (72960, 72966), (72968, 72969), (72971, 73014), (73018, 73018), (73020, 73021),
    (73023, 73025), (73027, 73027), (73030, 73031), (73040, 73049), (73056, 73061), (73063, 73064),
    (73066, 73102), (73104, 73105), (73107, 73110), (73112, 73112), (73120, 73129), (73440, 73462),
    (73648, 73648), (73664, 73684), (73728, 74649), (74752, 74862), (74880, 75075), (77712, 77808),
    (77824, 78894), (82944, 83526), (92160, 92728), (92736, 92766), (92768, 92777), (92784, 92862),
    (92864, 92873), (92880, 92909), (92928, 92975), (92992, 92995), (93008, 93017), (93019, 93025),
    (93027, 93047), (93053, 93071), (93760, 93846), (93952, 94026), (94031, 94087), (94095, 94111),
    (94176, 94177), (94179, 94179), (94192, 94193), (94208, 100343), (100352, 101589), (101632, 101640),
    (110576, 110579), (110581, 110587), (110589, 110590), (110592, 110882), (110928, 110930), (110948, 110951),
    (110960, 111355), (113664, 113770), (113776, 113788), (113792, 113800), (113808, 113817), (113822, 113822),
    (119520, 119539), (119648, 119672), (119808, 119892), (119894, 119964), (119966, 119967), (119970, 119970),
    (119973, 119974), (119977, 119980), (119982, 119993), (119995, 119995), (119997, 120003), (120005, 120069),
    (120071, 120074), (120077, 120084), (120086, 120092), (120094, 120121), (120123, 120126), (120128, 120132),
    (120134, 120134), (120138, 120144), (120146, 120485), (120488, 120512), (120514, 120538), (120540, 120570),
    (120572, 120596), (120598, 120628), (120630, 120654), (120656, 120686), (120688, 120712), (120714, 120744),
    (120746, 120770), (120772, 120779), (120782, 120831), (122624, 122654), (122880, 122886), (122888, 122904),
    (122907, 122913), (122915, 122916), (122918, 122922), (123136, 123180), (123191, 123197), (123200, 123209),
    (123214, 123214), (123536, 123565), (123584, 123627), (123632, 123641), (124896, 124902), (124904, 124907),
    (124909, 124910), (124912, 124926), (124928, 125124), (125127, 125135), (125184, 125251), (125255, 125255),
    (125259, 125259), (125264, 125273), (126065, 126123), (126125, 126127), (126129, 126132), (126209, 126253),
    (126255, 126269), (126464, 126467), (126469, 126495), (126497, 126498), (126500, 126500), (126503, 126503),
    (126505, 126514), (126516, 126519), (126521, 126521), (126523, 126523), (126530, 126530), (126535, 126535),
    (126537, 126537), (126539, 126539), (126541, 126543), (126545, 126546), (126548, 126548), (126551, 126551),
    (126553, 126553), (126555, 126555), (126557, 126557), (126559, 126559), (126561, 126562), (126564, 126564),
    (126567, 126570), (126572, 126578), (126580, 126583), (126585, 126588), (126590, 126590), (126592, 126601),
    (126603, 126619), (126625, 126627), (126629, 126633), (126635, 126651), (127232, 127244), (127280, 127305),
    (127312, 127337), (127344, 127369), (130032, 130041), (131072, 173791), (173824, 177976), (177984, 178205),
    (178208, 183969), (183984, 191456), (194560, 195101), (196608, 201546)
  ]

/-- Rust `char::is_alphanumeric` (used by `make_anchor` at
`src/processor.rs` line 385): true exactly on the `Alphabetic` characters
and the decimal, letterlike and other numeric characters. -/
def rustIsAlphanumeric (c : Char) : Bool :=
  alphanumericRanges.any (fun r => r.1 ≤ c.toNat && c.toNat ≤ r.2)

/-- Loop body of `make_anchor` (`src/processor.rs` lines 371-391): the
accumulator is the string built so far together with the `was_dash` flag. -/
def anchorStep (acc : String × Bool) (c : Char) : String × Bool :=
  if c = '_' then (acc.1.push c, false)
  else if c = ' ' ∨ c = '-' then
    if acc.2 then acc else (acc.1.push '-', true)
  else if rustIsAlphanumeric c then (acc.1.push c, false)
  else acc

/-- `make_anchor` (`src/processor.rs` lines 371-391): process the characters
of the link text in order, starting from the empty string with the `was_dash`
flag cleared. -/
def make_anchor (link : String) : String :=
  (link.data.foldl anchorStep ("", false)).1

/-- `Processor::make_linked_name` (`src/processor.rs` lines 236-239): an
index entry linking to the test's detail heading; the link target is the
anchor generated from the raw test name. -/
def make_linked_name (name : String) : String :=
  "[" ++ (name ++ ("](#" ++ (make_anchor name ++ ")")))

/-- `Processor::make_heading_title` (`src/processor.rs` lines 250-253): the
outcome glyph followed by the test name. -/
def make_heading_title (name outcome : String) : String :=
  outcome ++ (" " ++ name)

/-- `Processor::make_heading` (`src/processor.rs` lines 241-248): the detail
heading, carrying an explicit anchor generated from the raw test name. -/
def make_heading (name outcome : String) : String :=
  "## " ++ (make_heading_title name outcome ++ ("<a id=\"" ++ (make_anchor name ++ "\"></a>")))

/-- Character-level HTML escaping of `askama_escape` with the `Html`
escaper, used on captured test output (`escape(stdout, Html)` at
`src/processor.rs` line 333).  Character codes 34 and 39 are the double and
the single quote. -/
def escapeChar (c : Char) : String :=
  if c = '<' then "&lt;"
  else if c = '>' then "&gt;"
  else if c = '&' then "&amp;"
  else if c.toNat = 34 then "&quot;"
  else if c.toNat = 39 then "&#x27;"
  else String.singleton c

/-- HTML escaping of a whole string, character by character. -/
def escapeHtml (s : String) : String :=
  s.data.foldl (fun acc c => acc ++ escapeChar c) ""

def TestEvent.isStartedB : TestEvent → Bool
  | TestEvent.Started _ => true
  | TestEvent.Ok _ _ => false
  | TestEvent.Failed _ _ _ => false

/-- The index table row written for one test event by `render_index`
(`src/processor.rs` lines 264-287): `Started` events produce no row, `Ok`
and `Failed` events produce one row each.  `fd` is the duration formatter
(`Processor::format_duration`). -/
def indexRow (fd : ℚ → String) : TestEvent → Option String
  | TestEvent.Started _ => none
  | TestEvent.Ok name exec_time =>
      some ("| " ++ (make_linked_name name ++ (" | ✅ | " ++ (fd exec_time ++ " | "))))
  | TestEvent.Failed name exec_time _ =>
      some ("| " ++ (make_linked_name name ++ (" | ❌ | " ++ (fd exec_time ++ " | "))))

/-- The fixed lines written by `render_index` before the rows
(`src/processor.rs` lines 256-262). -/
def indexHeader : List String :=
  ["<!--more-->", "", "# Index", "", "| Name | Result | Duration |", "| ---- | ------ | -------- |"]

/-- `Processor::render_index` (`src/processor.rs` lines 255-290), as the list
of output lines. -/
def render_index (fd : ℚ → String) (tests : List TestEvent) : List String :=
  indexHeader ++ tests.filterMap (indexRow fd)

/-- The detail lines written for one test event by `render_details`
(`src/processor.rs` lines 297-341): nothing for `Started`; a heading and a
duration line for `Ok`; for `Failed` additionally a collapsible block with
the HTML-escaped captured output, emitted only when the captured output is
nonempty. -/
def detailLines (fd : ℚ → String) : TestEvent → List String
  | TestEvent.Started _ => []
  | TestEvent.Ok name exec_time =>
      ["", make_heading name "✅", "", "**Duration**: " ++ fd exec_time]
  | TestEvent.Failed name exec_time stdout =>
      ["", make_heading name "❌", "", "**Duration**: " ++ fd exec_time] ++
        (if stdout = "" then [] else
          ["", "<details>", "", "<summary>Test output</summary>", "",
           "<pre>", escapeHtml stdout, "</pre>", "", "</details>"])

/-- `Processor::render_details` (`src/processor.rs` lines 292-344), as the
list of output lines. -/
def render_details (fd : ℚ → String) (tests : List TestEvent) : List String :=
  ["", "", "# Details"] ++ tests.foldr (fun e acc => detailLines fd e ++ acc) []

/-- The total shown in the summary table header (`src/processor.rs` lines
103-106): the accumulated test count, or a placeholder when no suite
`Started` event was ever seen. -/
def renderTotal (test_count : Option Nat) : String :=
  match test_count with
  | some total => toString total
  | none => "*unknown*"

/-- The aggregation state of `Processor` (`src/processor.rs` lines 22-31):
the recorded test events in encounter order, the accumulated test count and
the aggregated summary. -/
structure ProcState where
  tests : List TestEvent
  test_count : Option Nat
  summary : Option Summary
deriving DecidableEq

/-- `Processor::record` (`src/processor.rs` lines 147-181) restricted to the
variants that exist in `src/event.rs`: test events are appended to `tests`,
suite `Started` events accumulate into `test_count`, suite `Failed` events
merge into `summary` (dropping `allowed_fail`).  The source additionally
matches a `suite::Event::Ok` variant that `src/event.rs` does not define. -/
def record (st : ProcState) : Record → ProcState
  | Record.test e => { st with tests := st.tests ++ [e] }
  | Record.suite (SuiteEvent.Started tc) =>
      { st with test_count := record_suite_started st.test_count tc }
  | Record.suite (SuiteEvent.Failed p f _af i fo t) =>
      { st with summary := record_suite_failed st.summary p f i fo t }

/-- Decoding of one raw input line: `none` models a line that `serde_json`
cannot even parse as JSON, and a parsed JSON value is deserialised by
`decodeRecord`. -/
def decodeLine : Option Json → Option Record
  | none => none
  | some j => decodeRecord j

/-- `Processor::line` (`src/processor.rs` lines 138-145): a line that decodes
feeds `record`, a line that fails to decode is logged and dropped; the
operation itself always succeeds. -/
def line (st : ProcState) (l : Option Json) : Except String ProcState :=
  match decodeLine l with
  | some r => Except.ok (record st r)
  | none => Except.ok st

/-! ### Helper lemmas about the anchor algorithm -/

/-- Recursive reformulation of the `make_anchor` loop: the list of characters
emitted when processing the input characters with a given initial `was_dash`
flag.  Related to `anchorStep` by `foldl_anchorStep_data`. -/
def anchorAux : Bool → List Char → List Char
  | _, [] => []
  | w, c :: cs =>
    if c = '_' then c :: anchorAux false cs
    else if c = ' ' ∨ c = '-' then
      if w then anchorAux true cs else '-' :: anchorAux true cs
    else if rustIsAlphanumeric c then c :: anchorAux false cs
    else anchorAux w cs

lemma string_eq_of_data {a b : String} (h : a.data = b.data) : a = b := by
  cases a; cases b; exact congrArg String.mk h

lemma foldl_anchorStep_data (cs : List Char) : ∀ (s : String) (w : Bool),
    ((cs.foldl anchorStep (s, w)).1).data = s.data ++ anchorAux w cs := by
  induction cs with
  | nil => intro s w; simp [anchorAux]
  | cons c cs ih =>
    intro s w
    simp only [List.foldl_cons]
    by_cases h1 : c = '_'
    · subst h1; simp [anchorStep, anchorAux, ih, String.data_push]
    · by_cases h2 : c = ' ' ∨ c = '-'
      · cases w with
        | true => simp [anchorStep, anchorAux, h1, h2, ih]
        | false => simp [anchorStep, anchorAux, h1, h2, ih, String.data_push]
      · by_cases h3 : rustIsAlphanumeric c
        · simp [anchorStep, anchorAux, h1, h2, h3, ih, String.data_push]
        · simp [anchorStep, anchorAux, h1, h2, h3, ih]

lemma make_anchor_data (s : String) : (make_anchor s).data = anchorAux false s.data := by
  have h := foldl_anchorStep_data s.data "" false
  simpa [make_anchor] using h

lemma anchorAux_idem (cs : List Char) :
    anchorAux false (anchorAux false cs) = anchorAux false cs ∧
    anchorAux true (anchorAux true cs) = anchorAux true cs := by
  induction cs with
  | nil => exact ⟨rfl, rfl⟩
  | cons c cs ih =>
    obtain ⟨A, B⟩ := ih
    by_cases h1 : c = '_'
    · subst h1
      constructor
      · simp [anchorAux, A]
      · simp [anchorAux, A]
    · by_cases h2 : c = ' ' ∨ c = '-'
      · have d1 : ¬(('-' : Char) = '_') := by decide
        have d2 : ('-' : Char) = ' ' ∨ ('-' : Char) = '-' := by decide
        constructor
        · simp [anchorAux, h1, h2, d1, d2, B]
        · simp [anchorAux, h1, h2, B]
      · by_cases h3 : rustIsAlphanumeric c
        · constructor
          · simp [anchorAux, h1, h2, h3, A]
          · simp [anchorAux, h1, h2, h3, A]
        · constructor
          · simp [anchorAux, h1, h2, h3, A]
          · simp [anchorAux, h1, h2, h3, B]

lemma foldl_sep_flag (cs : List Char) : ∀ (t : String),
    (∀ c ∈ cs, c = ' ' ∨ c = '-') → cs.foldl anchorStep (t, true) = (t, true) := by
  induction cs with
  | nil => intro t _; rfl
  | cons c cs ih =>
    intro t h
    have hc := h c (by simp)
    have h1 : ¬(c = '_') := by rcases hc with h' | h' <;> subst h' <;> decide
    simp only [List.foldl_cons]
    have hs : anchorStep (t, true) c = (t, true) := by simp [anchorStep, h1, hc]
    rw [hs]
    exact ih t (fun c' hc' => h c' (by simp [hc']))

lemma foldl_sep_run (cs : List Char) (t : String) (hne : cs ≠ [])
    (h : ∀ c ∈ cs, c = ' ' ∨ c = '-') :
    cs.foldl anchorStep (t, false) = (t.push '-', true) := by
  cases cs with
  | nil => exact absurd rfl hne
  | cons c cs =>
    have hc := h c (by simp)
    have h1 : ¬(c = '_') := by rcases hc with h' | h' <;> subst h' <;> decide
    simp only [List.foldl_cons]
    have hs : anchorStep (t, false) c = (t.push '-', true) := by simp [anchorStep, h1, hc]
    rw [hs]
    exact foldl_sep_flag cs _ (fun c' hc' => h c' (by simp [hc']))

/-! ### Helper lemmas about summary merging -/

lemma u64add_lt (a b : Nat) : u64add a b < 2 ^ 64 :=
  Nat.mod_lt _ (by norm_num)

lemma foldl_recordSuiteDone (evs : List SuiteDone) : ∀ (s : Summary),
    s.passed < 2 ^ 64 → s.failed < 2 ^ 64 → s.ignored < 2 ^ 64 → s.filtered_out < 2 ^ 64 →
    evs.foldl recordSuiteDone (some s) = some {
      outcome := if s.outcome = Outcome.Failed ∨ evs.any SuiteDone.isFailed = true then
        Outcome.Failed else Outcome.Ok,
      passed := (s.passed + (evs.map SuiteDone.passed).sum) % 2 ^ 64,
      failed := (s.failed + (evs.map SuiteDone.failed).sum) % 2 ^ 64,
      ignored := (s.ignored + (evs.map SuiteDone.ignored).sum) % 2 ^ 64,
      filtered_out := (s.filtered_out + (evs.map SuiteDone.filtered_out).sum) % 2 ^ 64,
      exec_time := s.exec_time + (evs.map SuiteDone.exec_time).sum } := by
  induction evs with
  | nil =>
    intro s h1 h2 h3 h4
    cases s with
    | mk o p f i fo t =>
      cases o <;>
        simp_all [Nat.mod_eq_of_lt]
  | cons e evs ih =>
    intro s h1 h2 h3 h4
    cases e with
    | Ok p f i fo t =>
      simp only [List.foldl_cons, recordSuiteDone, record_suite_ok]
      rw [ih _ (u64add_lt _ _) (u64add_lt _ _) (u64add_lt _ _) (u64add_lt _ _)]
      simp only [Option.some.injEq, Summary.mk.injEq]
      refine ⟨?_, ?_, ?_, ?_, ?_, ?_⟩
      · by_cases ho : s.outcome = Outcome.Failed <;>
          simp [ho, SuiteDone.isFailed]
      · simp [u64add, Nat.mod_add_mod, Nat.add_assoc, SuiteDone.passed]
      · simp [u64add, Nat.mod_add_mod, Nat.add_assoc, SuiteDone.failed]
      · simp [u64add, Nat.mod_add_mod, Nat.add_assoc, SuiteDone.ignored]
      · simp [u64add, Nat.mod_add_mod, Nat.add_assoc, SuiteDone.filtered_out]
      · simp [SuiteDone.exec_time, add_assoc]
    | Failed p f i fo t =>
      simp only [List.foldl_cons, recordSuiteDone, record_suite_failed]
      rw [ih _ (u64add_lt _ _) (u64add_lt _ _) (u64add_lt _ _) (u64add_lt _ _)]
      simp only [Option.some.injEq, Summary.mk.injEq]
      refine ⟨?_, ?_, ?_, ?_, ?_, ?_⟩
      · simp [SuiteDone.isFailed]
      · simp [u64add, Nat.mod_add_mod, Nat.add_assoc, SuiteDone.passed]
      · simp [u64add, Nat.mod_add_mod, Nat.add_assoc, SuiteDone.failed]
      · simp [u64add, Nat.mod_add_mod, Nat.add_assoc, SuiteDone.ignored]
      · simp [u64add, Nat.mod_add_mod, Nat.add_assoc, SuiteDone.filtered_out]
      · simp [SuiteDone.exec_time, add_assoc]

lemma processSuite_eq (evs : List SuiteDone) (hne : evs ≠ [])
    (hb : ∀ e ∈ evs, e.inBounds) :
    processSuite evs = some {
      outcome := if evs.any SuiteDone.isFailed = true then Outcome.Failed else Outcome.Ok,
      passed := (evs.map SuiteDone.passed).sum % 2 ^ 64,
      failed := (evs.map SuiteDone.failed).sum % 2 ^ 64,
      ignored := (evs.map SuiteDone.ignored).sum % 2 ^ 64,
      filtered_out := (evs.map SuiteDone.filtered_out).sum % 2 ^ 64,
      exec_time := (evs.map SuiteDone.exec_time).sum } := by
  cases evs with
  | nil => exact absurd rfl hne
  | cons e evs =>
    obtain ⟨b1, b2, b3, b4⟩ := hb e (by simp)
    cases e with
    | Ok p f i fo t =>
      have h0 : recordSuiteDone none (SuiteDone.Ok p f i fo t) =
          some ⟨Outcome.Ok, p, f, i, fo, t⟩ := rfl
      rw [processSuite, List.foldl_cons, h0,
        foldl_recordSuiteDone evs _ b1 b2 b3 b4]
      simp [SuiteDone.isFailed, SuiteDone.passed, SuiteDone.failed,
        SuiteDone.ignored, SuiteDone.filtered_out, SuiteDone.exec_time]
    | Failed p f i fo t =>
      have h0 : recordSuiteDone none (SuiteDone.Failed p f i fo t) =
          some ⟨Outcome.Failed, p, f, i, fo, t⟩ := rfl
      rw [processSuite, List.foldl_cons, h0,
        foldl_recordSuiteDone evs _ b1 b2 b3 b4]
      simp [SuiteDone.isFailed, SuiteDone.passed, SuiteDone.failed,
        SuiteDone.ignored, SuiteDone.filtered_out, SuiteDone.exec_time]

lemma foldl_recordSuiteDone_outcome (evs : List SuiteDone) : ∀ (s : Summary),
    (evs.foldl recordSuiteDone (some s)).map Summary.outcome =
      some (if s.outcome = Outcome.Failed ∨ evs.any SuiteDone.isFailed = true then
        Outcome.Failed else Outcome.Ok) := by
  induction evs with
  | nil =>
    intro s
    cases hso : s.outcome <;> simp [hso]
  | cons e evs ih =>
    intro s
    cases e with
    | Ok p f i fo t =>
      simp only [List.foldl_cons, recordSuiteDone, record_suite_ok]
      rw [ih]
      by_cases ho : s.outcome = Outcome.Failed <;>
        simp [ho, SuiteDone.isFailed]
    | Failed p f i fo t =>
      simp only [List.foldl_cons, recordSuiteDone, record_suite_failed]
      rw [ih]
      simp [SuiteDone.isFailed]

lemma processSuite_outcome (l : List SuiteDone) (hne : l ≠ []) :
    (processSuite l).map Summary.outcome =
      some (if l.any SuiteDone.isFailed = true then Outcome.Failed else Outcome.Ok) := by
  cases l with
  | nil => exact absurd rfl hne
  | cons e l =>
    cases e with
    | Ok p f i fo t =>
      have h0 : recordSuiteDone none (SuiteDone.Ok p f i fo t) =
          some ⟨Outcome.Ok, p, f, i, fo, t⟩ := rfl
      rw [processSuite, List.foldl_cons, h0, foldl_recordSuiteDone_outcome]
      simp [SuiteDone.isFailed]
    | Failed p f i fo t =>
      have h0 : recordSuiteDone none (SuiteDone.Failed p f i fo t) =
          some ⟨Outcome.Failed, p, f, i, fo, t⟩ := rfl
      rw [processSuite, List.foldl_cons, h0, foldl_recordSuiteDone_outcome]
      simp [SuiteDone.isFailed]

/-! ### Helper lemmas about the test count and the rendered lists -/

lemma foldl_record_suite_started (cs : List Nat) : ∀ (k : Nat), k < 2 ^ 64 →
    cs.foldl record_suite_started (some k) = some ((k + cs.sum) % 2 ^ 64) := by
  induction cs with
  | nil =>
    intro k hk
    simp only [List.foldl_nil, List.sum_nil, Nat.add_zero]
    rw [Nat.mod_eq_of_lt hk]
  | cons c cs ih =>
    intro k hk
    simp only [List.foldl_cons, record_suite_started]
    rw [ih _ (u64add_lt _ _)]
    simp [u64add, Nat.mod_add_mod, Nat.add_assoc]

lemma filterMap_indexRow (fd : ℚ → String) (tests : List TestEvent) :
    tests.filterMap (indexRow fd) =
      (tests.filter (fun e => !e.isStartedB)).map (fun e => (indexRow fd e).getD "") := by
  induction tests with
  | nil => rfl
  | cons e tests ih =>
    cases e <;> simp [indexRow, TestEvent.isStartedB, ih]

lemma foldr_detailLines (fd : ℚ → String) (tests : List TestEvent) :
    tests.foldr (fun e acc => detailLines fd e ++ acc) [] =
      (tests.filter (fun e => !e.isStartedB)).foldr
        (fun e acc => detailLines fd e ++ acc) [] := by
  induction tests with
  | nil => rfl
  | cons e tests ih =>
    cases e with
    | Started n =>
      have hd : detailLines fd (TestEvent.Started n) = [] := rfl
      simp [TestEvent.isStartedB, hd, ih]
    | Ok n t => simp [TestEvent.isStartedB, ih]
    | Failed n t o => simp [TestEvent.isStartedB, ih]

/-! ### Claim theorems -/

/-- C6: the anchor-generation function processes characters as follows:
underscores and (Unicode) alphanumeric characters are emitted literally
(case preserved) and reset the dash flag; any nonempty run of consecutive
spaces and/or dashes starting with the flag cleared emits exactly one `-`
and sets the flag; every other character is dropped without touching the
flag.  Moreover `make_anchor "" = ""`, `make_anchor "foo  bar" = "foo-bar"`,
a leading emoji followed by a space and words yields a single leading dash
with internal spaces rendered as single dashes, and a non-ASCII letter such
as `é` is kept. -/
theorem C6_anchor_character_rules :
    (∀ (a : String × Bool) (c : Char), c = '_' ∨ rustIsAlphanumeric c = true →
      anchorStep a c = (a.1.push c, false))
    ∧ (∀ (t : String) (cs : List Char), cs ≠ [] → (∀ c ∈ cs, c = ' ' ∨ c = '-') →
        cs.foldl anchorStep (t, false) = (t.push '-', true))
    ∧ (∀ (a : String × Bool) (c : Char), ¬(c = '_') → ¬(c = ' ' ∨ c = '-') →
        rustIsAlphanumeric c = false → anchorStep a c = a)
    ∧ make_anchor "" = "" ∧ make_anchor "foo  bar" = "foo-bar" ∧
      make_anchor "✅ foo bar" = "-foo-bar" ∧ make_anchor "café" = "café" := by
  refine ⟨?_, ?_, ?_, rfl, by decide, by decide, by decide⟩
  · rintro ⟨s, w⟩ c (h | h)
    · subst h; simp [anchorStep]
    · have h1 : ¬(c = '_') := by
        intro e; rw [e] at h; exact absurd h (by decide)
      have h2 : ¬(c = ' ' ∨ c = '-') := by
        rintro (e | e) <;> (rw [e] at h; exact absurd h (by decide))
      simp [anchorStep, h1, h2, h]
  · intro t cs hne hsep
    exact foldl_sep_run cs t hne hsep
  · rintro ⟨s, w⟩ c h1 h2 h3
    simp [anchorStep, h1, h2, h3]

/-- Witness for C6 at concrete inputs: an ASCII and a non-ASCII alphanumeric
character are emitted and clear the flag, a run of separators emits one
dash, and an emoji is dropped without touching the flag. -/
theorem C6_witness :
    anchorStep ("a", true) 'b' = ("ab", false) ∧
    anchorStep ("caf", false) 'é' = ("café", false) ∧
    List.foldl anchorStep ("x", false) [' ', '-', ' '] = ("x-", true) ∧
    anchorStep ("y", false) '✅' = ("y", false) := by
  refine ⟨?_, ?_, ?_, ?_⟩
  · exact (C6_anchor_character_rules.1 ("a", true) 'b' (Or.inr (by decide))).trans (by decide)
  · exact (C6_anchor_character_rules.1 ("caf", false) 'é' (Or.inr (by decide))).trans (by decide)
  · exact (C6_anchor_character_rules.2.1 "x" [' ', '-', ' '] (by simp) (by decide)).trans
      (by decide)
  · exact C6_anchor_character_rules.2.2.1 ("y", false) '✅' (by decide) (by decide) (by decide)

/-- C10: `make_anchor` is idempotent — its output consists only of
underscores, alphanumeric characters and isolated dashes, all of which it
maps to themselves. -/
theorem C10_make_anchor_idempotent (s : String) :
    make_anchor (make_anchor s) = make_anchor s := by
  apply string_eq_of_data
  rw [make_anchor_data, make_anchor_data]
  exact (anchorAux_idem s.data).1

/-- Witness for C10 at a concrete input. -/
theorem C10_witness :
    make_anchor (make_anchor "✅ foo bar") = make_anchor "✅ foo bar" :=
  C10_make_anchor_idempotent "✅ foo bar"

/-- C5: the index row's link target is the anchor generated from the raw
test name (one shared string `t = make_anchor name` appears as the link
target in `make_linked_name` and as the `id` attribute of the detail heading
for any outcome glyph), so two test events with the same name but different
outcomes produce identical anchors; and the anchor of the decorated heading
text would in general differ from the anchor actually used. -/
theorem C5_link_targets_from_raw_name :
    (∀ (name o₁ o₂ : String), ∃ t : String,
      make_linked_name name = "[" ++ (name ++ ("](#" ++ (t ++ ")"))) ∧
      make_heading name o₁ =
        "## " ++ (make_heading_title name o₁ ++ ("<a id=\"" ++ (t ++ "\"></a>"))) ∧
      make_heading name o₂ =
        "## " ++ (make_heading_title name o₂ ++ ("<a id=\"" ++ (t ++ "\"></a>"))) ∧
      t = make_anchor name)
    ∧ make_anchor (make_heading_title "foo bar" "✅") ≠ make_anchor "foo bar" := by
  constructor
  · intro name o₁ o₂
    exact ⟨make_anchor name, rfl, rfl, rfl, rfl⟩
  · decide

/-- Witness for C5 at a concrete name and the two outcome glyphs. -/
theorem C5_witness : ∃ t : String,
    make_linked_name "a b" = "[" ++ ("a b" ++ ("](#" ++ (t ++ ")"))) ∧
    make_heading "a b" "✅" =
      "## " ++ (make_heading_title "a b" "✅" ++ ("<a id=\"" ++ (t ++ "\"></a>"))) ∧
    make_heading "a b" "❌" =
      "## " ++ (make_heading_title "a b" "❌" ++ ("<a id=\"" ++ (t ++ "\"></a>"))) ∧
    t = make_anchor "a b" :=
  C5_link_targets_from_raw_name.1 "a b" "✅" "❌"

/-- C1: summary merging is sticky on failure — when a suite completion event
is ingested while a summary already exists, the resulting outcome is `Failed`
whenever the existing outcome was `Failed` or the new event is `Failed` (so a
later `Ok` never reverts a `Failed` outcome); and over any nonempty sequence
of suite completion events the count fields are the (`u64`) sums and
`exec_time` is the sum of the events' execution times, with outcome `Failed`
exactly when some event failed. -/
theorem C1_summary_merge_sticky_and_sums :
    (∀ (s : Summary) (e : SuiteDone), s.outcome = Outcome.Failed ∨ e.isFailed = true →
      ∃ s', recordSuiteDone (some s) e = some s' ∧ s'.outcome = Outcome.Failed)
    ∧ (∀ (evs : List SuiteDone), evs ≠ [] → (∀ e ∈ evs, e.inBounds) →
        processSuite evs = some {
          outcome := if evs.any SuiteDone.isFailed = true then Outcome.Failed else Outcome.Ok,
          passed := (evs.map SuiteDone.passed).sum % 2 ^ 64,
          failed := (evs.map SuiteDone.failed).sum % 2 ^ 64,
          ignored := (evs.map SuiteDone.ignored).sum % 2 ^ 64,
          filtered_out := (evs.map SuiteDone.filtered_out).sum % 2 ^ 64,
          exec_time := (evs.map SuiteDone.exec_time).sum }) := by
  constructor
  · intro s e h
    cases e with
    | Ok p f i fo t =>
      have ho : s.outcome = Outcome.Failed := by
        rcases h with h | h
        · exact h
        · exact absurd h (by simp [SuiteDone.isFailed])
      exact ⟨_, rfl, by simp [recordSuiteDone, record_suite_ok, ho]⟩
    | Failed p f i fo t =>
      exact ⟨_, rfl, by simp [recordSuiteDone, record_suite_failed]⟩
  · intro evs hne hb
    exact processSuite_eq evs hne hb

/-- Witness for C1: after a `Failed` suite event, a subsequent `Ok` suite
event keeps the outcome `Failed` while counts and execution time are summed. -/
theorem C1_witness :
    (∃ s', recordSuiteDone (some ⟨Outcome.Failed, 1, 1, 0, 0, 2⟩) (SuiteDone.Ok 2 0 1 0 3)
      = some s' ∧ s'.outcome = Outcome.Failed)
    ∧ processSuite [SuiteDone.Failed 1 1 0 0 2, SuiteDone.Ok 2 0 1 0 3] =
        some { outcome := Outcome.Failed, passed := 3, failed := 1, ignored := 1,
               filtered_out := 0, exec_time := 5 } := by
  constructor
  · exact C1_summary_merge_sticky_and_sums.1 ⟨Outcome.Failed, 1, 1, 0, 0, 2⟩
      (SuiteDone.Ok 2 0 1 0 3) (Or.inl rfl)
  · exact (C1_summary_merge_sticky_and_sums.2
      [SuiteDone.Failed 1 1 0 0 2, SuiteDone.Ok 2 0 1 0 3]
      (by simp) (by decide)).trans (by
        norm_num [SuiteDone.isFailed, SuiteDone.passed, SuiteDone.failed,
          SuiteDone.ignored, SuiteDone.filtered_out, SuiteDone.exec_time])

/-- The count fields and execution time of an optional summary, used to state
order-independence of the merge. -/
def summaryCounts : Option Summary → Option (Nat × Nat × Nat × Nat × ℚ)
  | none => none
  | some s => some (s.passed, s.failed, s.ignored, s.filtered_out, s.exec_time)

/-- C4: the aggregated count fields and `exec_time` do not depend on the
ingestion order of the suite completion events (they are invariant under
permutation), and any sequence containing at least one `Failed` suite event
yields the outcome `Failed` regardless of ordering. -/
theorem C4_merge_order_independent :
    (∀ (l₁ l₂ : List SuiteDone), l₁.Perm l₂ → (∀ e ∈ l₁, e.inBounds) →
      summaryCounts (processSuite l₁) = summaryCounts (processSuite l₂))
    ∧ (∀ (l : List SuiteDone), (∃ e ∈ l, e.isFailed = true) →
        (processSuite l).map Summary.outcome = some Outcome.Failed) := by
  constructor
  · intro l₁ l₂ hp hb
    cases l₁ with
    | nil =>
      rw [hp.nil_eq.symm]
    | cons e l =>
      have hne₁ : (e :: l) ≠ ([] : List SuiteDone) := by simp
      have hne₂ : l₂ ≠ [] := by
        intro h
        subst h
        exact hne₁ hp.eq_nil
      have hb₂ : ∀ e' ∈ l₂, e'.inBounds := fun e' he' => hb e' (hp.mem_iff.mpr he')
      rw [processSuite_eq _ hne₁ hb, processSuite_eq l₂ hne₂ hb₂]
      have hpp := (hp.map SuiteDone.passed).sum_eq
      have hpf := (hp.map SuiteDone.failed).sum_eq
      have hpi := (hp.map SuiteDone.ignored).sum_eq
      have hpo := (hp.map SuiteDone.filtered_out).sum_eq
      have hpt := (hp.map SuiteDone.exec_time).sum_eq
      simp only [List.map_cons, List.sum_cons] at hpp hpf hpi hpo hpt
      simp [summaryCounts, hpp, hpf, hpi, hpo, hpt]
  · intro l hf
    obtain ⟨e, he, hef⟩ := hf
    have hne : l ≠ [] := by
      intro h; subst h; exact absurd he (List.not_mem_nil e)
    have hany : l.any SuiteDone.isFailed = true := List.any_eq_true.mpr ⟨e, he, hef⟩
    rw [processSuite_outcome l hne, hany]
    simp

/-- Witness for C4: swapping two concrete suite events leaves the counts and
execution time unchanged, and the presence of a `Failed` event forces the
outcome. -/
theorem C4_witness :
    summaryCounts (processSuite [SuiteDone.Ok 1 0 0 0 1, SuiteDone.Failed 2 3 0 0 1]) =
      summaryCounts (processSuite [SuiteDone.Failed 2 3 0 0 1, SuiteDone.Ok 1 0 0 0 1])
    ∧ (processSuite [SuiteDone.Ok 1 0 0 0 1, SuiteDone.Failed 2 3 0 0 1]).map Summary.outcome =
        some Outcome.Failed := by
  constructor
  · exact C4_merge_order_independent.1
      [SuiteDone.Ok 1 0 0 0 1, SuiteDone.Failed 2 3 0 0 1]
      [SuiteDone.Failed 2 3 0 0 1, SuiteDone.Ok 1 0 0 0 1]
      (List.Perm.swap _ _ _) (by decide)
  · exact C4_merge_order_independent.2
      [SuiteDone.Ok 1 0 0 0 1, SuiteDone.Failed 2 3 0 0 1]
      ⟨SuiteDone.Failed 2 3 0 0 1, by simp, rfl⟩

/-- C3: every suite `Started` event adds its `test_count` to the accumulated
total (starting the total at that value when none was recorded yet): over any
nonempty sequence of `Started` counts the final total is their (`u64`) sum,
and two `Started` events with counts `3` and `4` render a header total of
`"7"`. -/
theorem C3_test_count_accumulates :
    (∀ (counts : List Nat), counts ≠ [] → (∀ c ∈ counts, c < 2 ^ 64) →
      List.foldl record_suite_started none counts = some (counts.sum % 2 ^ 64))
    ∧ renderTotal (List.foldl record_suite_started none [3, 4]) = "7" := by
  constructor
  · intro counts hne hb
    cases counts with
    | nil => exact absurd rfl hne
    | cons c cs =>
      have hc : c < 2 ^ 64 := hb c (by simp)
      rw [List.foldl_cons]
      show cs.foldl record_suite_started (some c) = _
      rw [foldl_record_suite_started cs c hc]
      simp
  · rfl

/-- Witness for C3 at the concrete counts 3 and 4. -/
theorem C3_witness :
    List.foldl record_suite_started none [3, 4] = some (([3, 4] : List Nat).sum % 2 ^ 64) :=
  (C3_test_count_accumulates.1 [3, 4] (by simp) (by decide))

/-- The JSON object of an input line `{"type":"suite","event":"ok",...}` with
all count fields and an `exec_time` of 1.7 seconds. -/
def suiteOkJson : Json :=
  Json.obj [("type", Json.str "suite"), ("event", Json.str "ok"),
    ("passed", Json.num 1), ("failed", Json.num 0), ("allowed_fail", Json.num 0),
    ("ignored", Json.num 0), ("filtered_out", Json.num 0),
    ("exec_time", Json.num (17 / 10))]

/-- The same input line with the `failed` event tag instead. -/
def suiteFailedJson : Json :=
  Json.obj [("type", Json.str "suite"), ("event", Json.str "failed"),
    ("passed", Json.num 1), ("failed", Json.num 0), ("allowed_fail", Json.num 0),
    ("ignored", Json.num 0), ("filtered_out", Json.num 0),
    ("exec_time", Json.num (17 / 10))]

/-- C2 (evaluation at the failing input): a line tagged `suite`/`ok` with all
fields present fails to decode, because `suite::Event` in `src/event.rs`
defines no `Ok` variant — even though the identical line tagged `failed`
decodes fine, and `Processor::record` pattern-matches a `suite::Event::Ok`
variant.  Unknown tag combinations also fail to decode. -/
theorem C2_suite_ok_line_fails_decode :
    decodeRecord suiteOkJson = none ∧
    decodeRecord suiteFailedJson =
      some (Record.suite (SuiteEvent.Failed 1 0 0 0 0 (17 / 10))) ∧
    decodeRecord (Json.obj [("type", Json.str "suite"), ("event", Json.str "bogus")]) = none ∧
    decodeRecord (Json.obj [("type", Json.str "bogus"), ("event", Json.str "ok")]) = none :=
  ⟨rfl, rfl, rfl, rfl⟩

lemma head_hash (s : String) : ("## " ++ s).data.head? = some '#' := by
  rw [String.data_append]; rfl

lemma head_stars (s : String) : ("**Duration**: " ++ s).data.head? = some '*' := by
  rw [String.data_append]; rfl

lemma details_ne_heading (n o : String) : ¬("<details>" = make_heading n o) := by
  intro h
  have hd := congrArg (fun s => s.data.head?) h
  simp only [make_heading, head_hash] at hd
  exact absurd hd (by decide)

lemma details_ne_duration (x : String) : ¬("<details>" = "**Duration**: " ++ x) := by
  intro h
  have hd := congrArg (fun s => s.data.head?) h
  simp only [head_stars] at hd
  exact absurd hd (by decide)

/-- C7: for a `Failed` test event with nonempty captured output the details
section contains a collapsible block whose body (between `<pre>` and
`</pre>`) is the HTML-escaped captured text; with empty captured output the
details are exactly the heading and duration lines and no collapsible block
is emitted. -/
theorem C7_failed_stdout_details_block :
    ∀ (fd : ℚ → String) (n : String) (t : ℚ) (out : String),
      (¬(out = "") →
        ∃ u v, detailLines fd (TestEvent.Failed n t out) =
            u ++ (["<pre>", escapeHtml out, "</pre>"] ++ v) ∧
          "<details>" ∈ detailLines fd (TestEvent.Failed n t out) ∧
          "</details>" ∈ detailLines fd (TestEvent.Failed n t out))
      ∧ (out = "" →
          detailLines fd (TestEvent.Failed n t out) =
            ["", make_heading n "❌", "", "**Duration**: " ++ fd t] ∧
          ¬("<details>" ∈ detailLines fd (TestEvent.Failed n t out))) := by
  intro fd n t out
  constructor
  · intro h
    refine ⟨["", make_heading n "❌", "", "**Duration**: " ++ fd t, "", "<details>", "",
        "<summary>Test output</summary>", ""], ["", "</details>"], ?_, ?_, ?_⟩
    · simp [detailLines, h]
    · simp [detailLines, h]
    · simp [detailLines, h]
  · intro h
    subst h
    have hl : detailLines fd (TestEvent.Failed n t "") =
        ["", make_heading n "❌", "", "**Duration**: " ++ fd t] := by
      simp [detailLines]
    refine ⟨hl, ?_⟩
    intro hmem
    rw [hl] at hmem
    simp only [List.mem_cons, List.not_mem_nil, or_false] at hmem
    rcases hmem with h' | h' | h' | h'
    · exact absurd h' (by decide)
    · exact details_ne_heading n "❌" h'
    · exact absurd h' (by decide)
    · exact details_ne_duration (fd t) h'

/-- Witness for C7: a failed test with captured output `"boom"` yields a
collapsible block containing the escaped text, and the same test with empty
captured output yields no block. -/
theorem C7_witness :
    (∃ u v, detailLines (fun _ => "0s") (TestEvent.Failed "b" (1 / 5) "boom") =
        u ++ (["<pre>", escapeHtml "boom", "</pre>"] ++ v) ∧
      "<details>" ∈ detailLines (fun _ => "0s") (TestEvent.Failed "b" (1 / 5) "boom") ∧
      "</details>" ∈ detailLines (fun _ => "0s") (TestEvent.Failed "b" (1 / 5) "boom"))
    ∧ ¬("<details>" ∈ detailLines (fun _ => "0s") (TestEvent.Failed "b" (1 / 5) "")) :=
  ⟨(C7_failed_stdout_details_block (fun _ => "0s") "b" (1 / 5) "boom").1 (by decide),
   ((C7_failed_stdout_details_block (fun _ => "0s") "b" (1 / 5) "").2 rfl).2⟩

/-- C8: a line that fails to decode — not valid JSON at all, or JSON whose
tags do not match any event — leaves the whole aggregation state unchanged
and the per-line operation still succeeds. -/
theorem C8_undecodable_line_is_noop :
    ∀ (st : ProcState) (l : Option Json), decodeLine l = none →
      line st l = Except.ok st := by
  intro st l h
  simp [line, h]

/-- Witness for C8: an invalid-JSON line and a line with an unknown `type`
tag both leave a concrete state untouched. -/
theorem C8_witness :
    line ⟨[], none, none⟩ none = Except.ok ⟨[], none, none⟩ ∧
    line ⟨[], none, none⟩ (some (Json.obj [("type", Json.str "flurb")])) =
      Except.ok ⟨[], none, none⟩ :=
  ⟨C8_undecodable_line_is_noop ⟨[], none, none⟩ none rfl,
   C8_undecodable_line_is_noop ⟨[], none, none⟩ (some (Json.obj [("type", Json.str "flurb")])) rfl⟩

/-- C9: the rendered index consists of the fixed header followed by exactly
one row per non-`Started` test event, in ingestion order, and the details
section iterates exactly the same filtered sequence in the same order. -/
theorem C9_index_and_details_order :
    ∀ (fd : ℚ → String) (tests : List TestEvent),
      render_index fd tests =
        indexHeader ++ (tests.filter (fun e => !e.isStartedB)).map
          (fun e => (indexRow fd e).getD "") ∧
      (tests.filterMap (indexRow fd)).length =
        (tests.filter (fun e => !e.isStartedB)).length ∧
      render_details fd tests =
        ["", "", "# Details"] ++ (tests.filter (fun e => !e.isStartedB)).foldr
          (fun e acc => detailLines fd e ++ acc) [] := by
  intro fd tests
  refine ⟨?_, ?_, ?_⟩
  · rw [render_index, filterMap_indexRow]
  · rw [filterMap_indexRow, List.length_map]
  · rw [render_details, foldr_detailLines]

end MarkdownTestReport
